import Mathlib

/-!
Verification of the `rc` crate (japaric-archived/rc.rs): a reference-counted
pointer `Rc<T>` that accepts DSTs, with the reference count stored in a
separate heap allocation.

The embedding models the two heaps the handles touch (counter allocations and
data allocations) as lists of optional slots, addressed by position; `none`
marks a slot that is unallocated or already freed.  An event trace records, in
order, every release of a counter allocation and every release of a data
allocation (the latter runs the underlying value's destructor, as dropping a
`Box<T>` does in the source).  A handle is the pair of the two raw pointers of
`struct Rc<T>` in `src/lib.rs`: the counter pointer is modelled by `CountPtr`,
which also has the two post-release sentinel shapes `Drop::drop` checks for
(`null` and `POST_DROP_USIZE`); the data pointer is a plain address.  Machine
`usize` arithmetic of the counter uses `Nat` with truncated subtraction, which
agrees with the source everywhere the counter is positive — the only states the
source's protocol ever decrements from.
-/

namespace RcModel

/-- Heap addresses are modelled as positions into the allocation lists. -/
abbrev Addr := Nat

/-- The `count: NonZero<*mut Cell<usize>>` field of `Rc<T>`, together with the
two post-release sentinel shapes that `Drop for Rc<T>` tests for: a null
pointer, and the `mem::POST_DROP_USIZE` filler that the compiler writes over a
handle's memory after its destructor has run (`#![feature(filling_drop)]` with
`#[unsafe_no_drop_flag]`). -/
inductive CountPtr where
  | valid (a : Addr)
  | null
  | postDrop
deriving DecidableEq, Repr

/-- Release events, in the order they happen.  `freeCounter a` is
`drop(Box::from_raw(*self.count))`; `freeData a` is
`drop(Box::from_raw(*self.data))`, which runs the underlying value's
destructor and releases the data allocation. -/
inductive Event where
  | freeCounter (a : Addr)
  | freeData (a : Addr)
deriving DecidableEq, Repr

/-- The store the handles operate on: counter allocations (each holding the
`Cell<usize>` value), data allocations (each holding the underlying value),
and the trace of release events so far. -/
structure State (V : Type) where
  counters : List (Option Nat)
  datas : List (Option V)
  trace : List Event
deriving DecidableEq, Repr

/-- The handle `struct Rc<T> { count: NonZero<*mut Cell<usize>>, data: NonZero<*mut T> }`. -/
structure Rc where
  count : CountPtr
  data : Addr
deriving DecidableEq, Repr

/-- The store with no allocations performed yet. -/
def emptyState (V : Type) : State V :=
  { counters := [], datas := [], trace := [] }

/-- Heap-allocate an owned value (`Box::new`, or the owned buffer produced by
`to_vec` / `String::from_str` / `into_boxed_slice`): a fresh data slot. -/
def State.allocData (s : State V) (v : V) : Addr × State V :=
  (s.datas.length, { s with datas := s.datas ++ [some v] })

/-- Heap-allocate a fresh counter cell (`Box::new(Cell::new(n))`). -/
def State.allocCounter (s : State V) (n : Nat) : Addr × State V :=
  (s.counters.length, { s with counters := s.counters ++ [some n] })

/-- Read the counter cell a handle points to: `Rc::count(&self)`, i.e.
`(**self.count).get()`.  Reading through a sentinel pointer or a freed slot is
undefined behaviour in the source; the model returns `none` there. -/
def Rc.getCount (s : State V) (r : Rc) : Option Nat :=
  match r.count with
  | CountPtr.valid a => s.counters.getD a none
  | _ => none

/-- `Rc::dec_count`: `(**self.count).set(self.count() - 1)`.  On a sentinel
pointer the write is undefined behaviour in the source; the model leaves the
state unchanged there, and no theorem exercises that case. -/
def Rc.decCount (s : State V) (r : Rc) : State V :=
  match r.count with
  | CountPtr.valid a =>
      let n := (s.counters.getD a none).getD 0
      { s with counters := s.counters.set a (some (n - 1)) }
  | _ => s

/-- `Rc::inc_count`: `(**self.count).set(self.count() + 1)`. -/
def Rc.incCount (s : State V) (r : Rc) : State V :=
  match r.count with
  | CountPtr.valid a =>
      let n := (s.counters.getD a none).getD 0
      { s with counters := s.counters.set a (some (n + 1)) }
  | _ => s

/-- `impl From<Box<T>> for Rc<T>`: adopt an already heap-allocated value `b`
without touching it, allocating only a fresh counter initialized to 1. -/
def rcFromBox (s : State V) (b : Addr) : Rc × State V :=
  let p := State.allocCounter s 1
  ({ count := CountPtr.valid p.1, data := b }, p.2)

/-- `Rc::new(value)`: `Rc::from(Box::new(value))`. -/
def rcNew (s : State V) (v : V) : Rc × State V :=
  let p := State.allocData s v
  rcFromBox p.2 p.1

/-- `impl From<Vec<T>> for Rc<[T]>`: `Rc::from(vec.into_boxed_slice())`.  The
owned vector becomes a boxed buffer with the same elements, which the model
places in a data slot, then the `From<Box<T>>` primitive adopts it. -/
def rcFromVec (s : State (List α)) (xs : List α) : Rc × State (List α) :=
  let p := State.allocData s xs
  rcFromBox p.2 p.1

/-- `impl From<&[T]> for Rc<[T]>`: `Rc::from(slice.to_vec())`.  `to_vec`
copies the borrowed elements into an owned vector with the same contents. -/
def rcFromSlice (s : State (List α)) (xs : List α) : Rc × State (List α) :=
  rcFromVec s xs

/-- `impl From<String> for Rc<str>`: `transmute(Rc::from(string.into_bytes()))`.
The byte buffer of the string is boxed and adopted; the transmute back to
`Rc<str>` preserves the contents, so the model keeps the string value. -/
def rcFromString (s : State String) (t : String) : Rc × State String :=
  let p := State.allocData s t
  rcFromBox p.2 p.1

/-- `impl From<&str> for Rc<str>`: `Rc::from(String::from_str(string))`.
`String::from_str` copies the borrowed text into an owned string. -/
def rcFromStr (s : State String) (t : String) : Rc × State String :=
  rcFromString s t

/-- `impl Clone for Rc<T>`: `self.inc_count()`, then return
`Rc { count: self.count, data: self.data }`. -/
def Rc.clone (s : State V) (r : Rc) : Rc × State V :=
  ({ count := r.count, data := r.data }, Rc.incCount s r)

/-- `impl Deref for Rc<T>`: read the value the data pointer refers to.  A
dangling pointer (freed slot) yields `none`, which in the source would be
undefined behaviour. -/
def Rc.deref (s : State V) (r : Rc) : Option V :=
  s.datas.getD r.data none

/-- `impl Borrow<T> for Rc<T>`: the body is `self`, which the compiler coerces
through `Deref::deref`. -/
def Rc.borrow (s : State V) (r : Rc) : Option V :=
  Rc.deref s r

/-- The body of `impl Drop for Rc<T>`: if the count pointer is null or the
`POST_DROP_USIZE` filler, do nothing; otherwise decrement the counter, and if
it reached zero release the counter allocation and then the data allocation. -/
def Rc.dropRun (s : State V) (r : Rc) : State V :=
  match r.count with
  | CountPtr.null => s
  | CountPtr.postDrop => s
  | CountPtr.valid a =>
      let s1 := Rc.decCount s r
      if (s1.counters.getD a none).getD 0 = 0 then
        let s2 : State V := { s1 with counters := s1.counters.set a none,
                                      trace := s1.trace ++ [Event.freeCounter a] }
        { s2 with datas := s2.datas.set r.data none,
                  trace := s2.trace ++ [Event.freeData r.data] }
      else s1

/-- A full teardown of a handle: run the `Drop` body, after which the compiler
fills the handle's memory with `POST_DROP_USIZE` (the crate opts into
`filling_drop` and `unsafe_no_drop_flag`), so the count pointer the handle's
memory now holds is the post-release sentinel. -/
def Rc.teardown (s : State V) (r : Rc) : Rc × State V :=
  ({ count := CountPtr.postDrop, data := r.data }, Rc.dropRun s r)

/-- `impl PartialEq for Rc<T>`: `PartialEq::eq(&**self, &**rhs)` — compare the
dereferenced values. -/
def Rc.rcEq [DecidableEq V] (s : State V) (r1 r2 : Rc) : Bool :=
  decide (Rc.deref s r1 = Rc.deref s r2)

/-- `impl Hash for Rc<T>`: `Hash::hash(&**self, state)` — hash the
dereferenced value; the hasher is abstracted as a function `hf`. -/
def Rc.rcHash (hf : V → Nat) (s : State V) (r : Rc) : Option Nat :=
  (Rc.deref s r).map hf

/-- Duplicate a handle `n` times.  `Clone::clone` returns a handle with the
same two pointer fields, so only the state evolves. -/
def cloneN (s : State V) (r : Rc) : Nat → State V
  | 0 => s
  | Nat.succ k => cloneN (Rc.clone s r).2 r k

/-- Tear down `n` live handles that all carry the same two pointer fields
(an original and its duplicates), one after another. -/
def teardownN (s : State V) (r : Rc) : Nat → State V
  | 0 => s
  | Nat.succ k => teardownN (Rc.teardown s r).2 r k

/-- The handle produced by constructing from `v` in the empty store. -/
def scenarioHandle (V : Type) (v : V) : Rc :=
  (rcNew (emptyState V) v).1

/-- The store after constructing from `v` in the empty store and duplicating
the handle `n` times. -/
def scenarioState (V : Type) (v : V) (n : Nat) : State V :=
  cloneN (rcNew (emptyState V) v).2 (scenarioHandle V v) n

/-- Constructing in the empty store yields the handle `(counter 0, data 0)`
over the one-slot heaps. -/
lemma rcNew_empty (V : Type) (v : V) :
    rcNew (emptyState V) v
      = ({ count := CountPtr.valid 0, data := 0 },
         { counters := [some 1], datas := [some v], trace := [] }) := rfl

/-- Duplicating `k` times adds `k` to the (single) counter slot and leaves the
data heap and the trace alone. -/
lemma cloneN_concrete (V : Type) (v : V) (tr : List Event) :
    ∀ (k m : Nat),
      cloneN { counters := [some m], datas := [some v], trace := tr }
        { count := CountPtr.valid 0, data := 0 } k
      = { counters := [some (m + k)], datas := [some v], trace := tr } := by
  intro k
  induction k with
  | zero => intro m; rfl
  | succ k ih =>
      intro m
      show cloneN { counters := [some (m + 1)], datas := [some v], trace := tr } _ k = _
      rw [ih (m + 1)]
      have : m + 1 + k = m + (k + 1) := by omega
      rw [this]

/-- The handle of the construction scenario points at counter slot 0 and data
slot 0. -/
lemma scenarioHandle_eq (V : Type) (v : V) :
    scenarioHandle V v = { count := CountPtr.valid 0, data := 0 } := rfl

/-- The store after construction and `n` duplications holds one counter at
`n + 1` and the original value. -/
lemma scenarioState_eq (V : Type) (v : V) (n : Nat) :
    scenarioState V v n
      = { counters := [some (n + 1)], datas := [some v], trace := [] } := by
  show cloneN { counters := [some 1], datas := [some v], trace := [] }
      (scenarioHandle V v) n = _
  rw [scenarioHandle_eq, cloneN_concrete]
  have : 1 + n = n + 1 := by omega
  rw [this]

/-- Tearing down one of at least two live handles only decrements the counter:
nothing is freed and no event is emitted. -/
lemma teardown_step (V : Type) (v : V) (tr : List Event) (k : Nat) :
    Rc.teardown { counters := [some (k + 2)], datas := [some v], trace := tr }
      { count := CountPtr.valid 0, data := 0 }
    = ({ count := CountPtr.postDrop, data := 0 },
       { counters := [some (k + 1)], datas := [some v], trace := tr }) := rfl

/-- Tearing down the last live handle decrements the counter to zero, then
releases the counter allocation and afterwards the data allocation. -/
lemma teardown_last (V : Type) (v : V) (tr : List Event) :
    Rc.teardown { counters := [some 1], datas := [some v], trace := tr }
      { count := CountPtr.valid 0, data := 0 }
    = ({ count := CountPtr.postDrop, data := 0 },
       { counters := [none], datas := [none],
         trace := tr ++ [Event.freeCounter 0, Event.freeData 0] }) := by
  show ({ count := CountPtr.postDrop, data := 0 },
        { counters := [none], datas := [none],
          trace := (tr ++ [Event.freeCounter 0]) ++ [Event.freeData 0] })
      = (({ count := CountPtr.postDrop, data := 0 } : Rc),
         ({ counters := [none], datas := [none],
            trace := tr ++ [Event.freeCounter 0, Event.freeData 0] } : State V))
  rw [List.append_assoc]
  rfl

/-- Tearing down `i` of `i + k + 1` live handles drives the counter down by
exactly one per teardown, never freeing anything. -/
lemma teardownN_partial (V : Type) (v : V) (tr : List Event) :
    ∀ (i k : Nat),
      teardownN { counters := [some (i + k + 1)], datas := [some v], trace := tr }
        { count := CountPtr.valid 0, data := 0 } i
      = { counters := [some (k + 1)], datas := [some v], trace := tr } := by
  intro i
  induction i with
  | zero =>
      intro k
      have h0 : 0 + k + 1 = k + 1 := by omega
      rw [h0]
      rfl
  | succ i ih =>
      intro k
      have h1 : i + 1 + k + 1 = (i + k) + 2 := by omega
      rw [h1]
      show teardownN
          (Rc.teardown { counters := [some ((i + k) + 2)], datas := [some v], trace := tr }
            { count := CountPtr.valid 0, data := 0 }).2
          { count := CountPtr.valid 0, data := 0 } i = _
      rw [teardown_step]
      exact ih k

/-- Tearing down all `m + 1` live handles ends with both slots freed and a
trace recording one counter release followed by one data release. -/
lemma teardownN_full (V : Type) (v : V) (tr : List Event) :
    ∀ (m : Nat),
      teardownN { counters := [some (m + 1)], datas := [some v], trace := tr }
        { count := CountPtr.valid 0, data := 0 } (m + 1)
      = { counters := [none], datas := [none],
          trace := tr ++ [Event.freeCounter 0, Event.freeData 0] } := by
  intro m
  induction m with
  | zero =>
      show teardownN
          (Rc.teardown { counters := [some 1], datas := [some v], trace := tr }
            { count := CountPtr.valid 0, data := 0 }).2
          { count := CountPtr.valid 0, data := 0 } 0 = _
      rw [teardown_last]
      rfl
  | succ m ih =>
      show teardownN
          (Rc.teardown { counters := [some (m + 2)], datas := [some v], trace := tr }
            { count := CountPtr.valid 0, data := 0 }).2
          { count := CountPtr.valid 0, data := 0 } (m + 1) = _
      rw [teardown_step]
      exact ih

/-- Reading the counter back right after a duplication sees the old value plus
one: `inc_count` is an in-place read-modify-write of the shared cell. -/
lemma getCount_clone (V : Type) (s : State V) (r : Rc) (k : Nat)
    (hk : Rc.getCount s r = some k) :
    Rc.getCount (Rc.clone s r).2 r = some (k + 1) := by
  rcases r with ⟨c, d⟩
  cases c with
  | null => exact absurd hk (by simp [Rc.getCount])
  | postDrop => exact absurd hk (by simp [Rc.getCount])
  | valid a =>
      simp only [Rc.getCount] at hk
      have ha : a < s.counters.length := by
        by_contra hlt
        push_neg at hlt
        rw [List.getD_eq_default _ _ hlt] at hk
        exact Option.noConfusion hk
      simp only [Rc.clone, Rc.incCount, Rc.getCount, hk, Option.getD_some]
      rw [List.getD_eq_getElem?_getD, List.getElem?_set_eq_of_lt _ ha]
      rfl

/-- C1: in any scenario of a construction followed by `n` duplications of the
handle, tearing down all `n + 1` handles ends with the counter slot and the
data slot both released, the event trace showing exactly one counter release
followed by exactly one data release (the latter running the underlying
value's destructor once), and the final teardown leaving the handle's counter
reference marked with the post-release sentinel. -/
theorem rc_release_exactly_once (V : Type) (v : V) (n : Nat) :
    teardownN (scenarioState V v n) (scenarioHandle V v) (n + 1)
      = { counters := [none], datas := [none],
          trace := [Event.freeCounter 0, Event.freeData 0] }
    ∧ (Rc.teardown (teardownN (scenarioState V v n) (scenarioHandle V v) n)
        (scenarioHandle V v)).1.count = CountPtr.postDrop := by
  constructor
  · rw [scenarioState_eq, scenarioHandle_eq, teardownN_full]
    rfl
  · rfl

/-- C2: a freshly constructed handle has count 1; after `n` duplications the
shared counter reads `n + 1`; each duplication increments the counter it
shares with the original by exactly one, returns a handle with the very same
counter pointer and data pointer, and leaves the data heap (the underlying
value) untouched. -/
theorem rc_clone_increments (V : Type) (v : V) (n : Nat) (s : State V) (r : Rc)
    (k : Nat) (hk : Rc.getCount s r = some k) :
    Rc.getCount (rcNew (emptyState V) v).2 (rcNew (emptyState V) v).1 = some 1
    ∧ Rc.getCount (scenarioState V v n) (scenarioHandle V v) = some (n + 1)
    ∧ (Rc.clone s r).1 = r
    ∧ (Rc.clone s r).2.datas = s.datas
    ∧ Rc.getCount (Rc.clone s r).2 r = some (k + 1) := by
  refine ⟨rfl, ?_, rfl, ?_, getCount_clone V s r k hk⟩
  · rw [scenarioState_eq, scenarioHandle_eq]
    rfl
  · rcases r with ⟨c, d⟩
    cases c <;> rfl

/-- Witness for the clone theorem at `V := Nat`, `v := 7`, `n := 2`, a store
with one counter at 5, and `k := 5`. -/
theorem rc_clone_increments_witness :
    Rc.getCount (rcNew (emptyState Nat) 7).2 (rcNew (emptyState Nat) 7).1 = some 1
    ∧ Rc.getCount (scenarioState Nat 7 2) (scenarioHandle Nat 7) = some (2 + 1)
    ∧ (Rc.clone { counters := [some 5], datas := [some 7], trace := [] }
        { count := CountPtr.valid 0, data := 0 }).1
      = { count := CountPtr.valid 0, data := 0 }
    ∧ (Rc.clone { counters := [some 5], datas := [some 7], trace := [] }
        { count := CountPtr.valid 0, data := 0 }).2.datas
      = ({ counters := [some 5], datas := [some 7], trace := [] } : State Nat).datas
    ∧ Rc.getCount
        (Rc.clone { counters := [some 5], datas := [some 7], trace := [] }
          { count := CountPtr.valid 0, data := 0 }).2
        { count := CountPtr.valid 0, data := 0 } = some (5 + 1) :=
  rc_clone_increments Nat 7 2
    { counters := [some 5], datas := [some 7], trace := [] }
    { count := CountPtr.valid 0, data := 0 } 5 rfl

/-- C3: in the scenario of `n` duplications of a fresh handle, after tearing
down `i ≤ n` of the `n + 1` handles the shared counter reads exactly
`n + 1 - i` — one decrement per teardown, always positive while any handle
remains — and the final teardown releases the counter slot exactly when the
count hits zero, never driving it below zero. -/
theorem rc_teardown_counts (V : Type) (v : V) (n i : Nat) (h : i ≤ n) :
    Rc.getCount (teardownN (scenarioState V v n) (scenarioHandle V v) i)
      (scenarioHandle V v) = some (n + 1 - i)
    ∧ (teardownN (scenarioState V v n) (scenarioHandle V v) (n + 1)).counters
      = [none] := by
  constructor
  · rw [scenarioState_eq, scenarioHandle_eq]
    have hn : n + 1 = i + (n - i) + 1 := by omega
    rw [hn, teardownN_partial]
    have hs : n - i + 1 = i + (n - i) + 1 - i := by omega
    rw [← hs]
    rfl
  · rw [scenarioState_eq, scenarioHandle_eq, teardownN_full]

/-- Witness for the teardown-count theorem at `V := Nat`, `v := 0`, `n := 2`,
`i := 1`. -/
theorem rc_teardown_counts_witness :
    Rc.getCount (teardownN (scenarioState Nat 0 2) (scenarioHandle Nat 0) 1)
      (scenarioHandle Nat 0) = some (2 + 1 - 1)
    ∧ (teardownN (scenarioState Nat 0 2) (scenarioHandle Nat 0) (2 + 1)).counters
      = [none] :=
  rc_teardown_counts Nat 0 2 1 (by decide)

/-- C4: tearing down the same handle memory a second time is a no-op: the
first teardown leaves the post-release sentinel in the count field, and the
`Drop` body does nothing when the count pointer is null or the sentinel, so
the second teardown changes neither the counter slots nor either heap. -/
theorem rc_teardown_idempotent (V : Type) (s : State V) (r : Rc) (d : Addr) :
    Rc.teardown (Rc.teardown s r).2 (Rc.teardown s r).1 = Rc.teardown s r
    ∧ Rc.dropRun s { count := CountPtr.null, data := d } = s
    ∧ Rc.dropRun s { count := CountPtr.postDrop, data := d } = s :=
  ⟨rfl, rfl, rfl⟩

/-- C5: `From<Box<T>>` adopts the boxed allocation as-is: the resulting
handle's data pointer is exactly the adopted address, the data heap is not
touched (no copy, no reallocation), the counter is a fresh slot initialized
to 1; and every other constructor funnels through this primitive. -/
theorem rc_adopt_box_primitive (V α : Type) (s : State V) (b : Addr) (v : V)
    (sl : State (List α)) (xs : List α) (st : State String) (t : String) :
    (rcFromBox s b).1.data = b
    ∧ (rcFromBox s b).2.datas = s.datas
    ∧ (rcFromBox s b).1.count = CountPtr.valid s.counters.length
    ∧ s.counters.getD s.counters.length none = none
    ∧ Rc.getCount (rcFromBox s b).2 (rcFromBox s b).1 = some 1
    ∧ rcNew s v = rcFromBox (State.allocData s v).2 (State.allocData s v).1
    ∧ rcFromSlice sl xs = rcFromVec sl xs
    ∧ rcFromVec sl xs = rcFromBox (State.allocData sl xs).2 (State.allocData sl xs).1
    ∧ rcFromStr st t = rcFromString st t
    ∧ rcFromString st t = rcFromBox (State.allocData st t).2 (State.allocData st t).1 := by
  refine ⟨rfl, rfl, rfl, ?_, ?_, rfl, rfl, rfl, rfl, rfl⟩
  · exact List.getD_eq_default _ _ (Nat.le_refl _)
  · show (s.counters ++ [some 1]).getD s.counters.length none = some 1
    rw [List.getD_append_right _ _ _ _ (Nat.le_refl _), Nat.sub_self]
    rfl

/-- The handle built by `Rc::from(&str)` in the empty store. -/
def strScenarioRc (t : String) : Rc :=
  (rcFromStr (emptyState String) t).1

/-- The store after building a handle from borrowed text in the empty store
and duplicating it `k` times. -/
def strScenarioState (t : String) (k : Nat) : State String :=
  cloneN (rcFromStr (emptyState String) t).2 (strScenarioRc t) k

/-- The store after additionally tearing down the original handle. -/
def strAfterOrigTeardown (t : String) (k : Nat) : State String :=
  (Rc.teardown (strScenarioState t k) (strScenarioRc t)).2

/-- The borrowed-text scenario store holds one counter at `k + 1` over the
copied text. -/
lemma strScenarioState_eq (t : String) (k : Nat) :
    strScenarioState t k
      = { counters := [some (k + 1)], datas := [some t], trace := [] } := by
  show cloneN { counters := [some 1], datas := [some t], trace := [] }
      { count := CountPtr.valid 0, data := 0 } k = _
  rw [cloneN_concrete]
  have : 1 + k = k + 1 := by omega
  rw [this]

/-- The handle built by `Rc::from(&[T])` in the empty store. -/
def sliceScenarioRc (α : Type) (xs : List α) : Rc :=
  (rcFromSlice (emptyState (List α)) xs).1

/-- The store after building a handle from a borrowed slice in the empty
store and duplicating it `k` times. -/
def sliceScenarioState (α : Type) (xs : List α) (k : Nat) : State (List α) :=
  cloneN (rcFromSlice (emptyState (List α)) xs).2 (sliceScenarioRc α xs) k

/-- The store after additionally tearing down the original slice handle. -/
def sliceAfterOrigTeardown (α : Type) (xs : List α) (k : Nat) : State (List α) :=
  (Rc.teardown (sliceScenarioState α xs k) (sliceScenarioRc α xs)).2

/-- The borrowed-slice scenario store holds one counter at `k + 1` over the
copied sequence. -/
lemma sliceScenarioState_eq (α : Type) (xs : List α) (k : Nat) :
    sliceScenarioState α xs k
      = { counters := [some (k + 1)], datas := [some xs], trace := [] } := by
  show cloneN { counters := [some 1], datas := [some xs], trace := [] }
      { count := CountPtr.valid 0, data := 0 } k = _
  rw [cloneN_concrete]
  have : 1 + k = k + 1 := by omega
  rw [this]

/-- C6: build a handle from borrowed sequence data or from borrowed text,
duplicate it `k ≥ 1` times, then tear down the original: in both cases the
count drops from `k + 1` to `k`, and the shared value is neither freed nor
changed — the surviving duplicates (which carry the same two pointers) still
dereference to the original content. -/
theorem rc_use_after_share (α : Type) (xs : List α) (t : String) (k : Nat)
    (hk : 1 ≤ k) :
    Rc.getCount (sliceScenarioState α xs k) (sliceScenarioRc α xs) = some (k + 1)
    ∧ Rc.getCount (sliceAfterOrigTeardown α xs k) (sliceScenarioRc α xs) = some k
    ∧ Rc.deref (sliceAfterOrigTeardown α xs k) (sliceScenarioRc α xs) = some xs
    ∧ Rc.getCount (strScenarioState t k) (strScenarioRc t) = some (k + 1)
    ∧ Rc.getCount (strAfterOrigTeardown t k) (strScenarioRc t) = some k
    ∧ Rc.deref (strAfterOrigTeardown t k) (strScenarioRc t) = some t := by
  obtain ⟨j, rfl⟩ : ∃ j, k = j + 1 := ⟨k - 1, by omega⟩
  have hj : j + 1 + 1 = j + 2 := by omega
  have hsl : sliceAfterOrigTeardown α xs (j + 1)
      = { counters := [some (j + 1)], datas := [some xs], trace := [] } := by
    show (Rc.teardown (sliceScenarioState α xs (j + 1))
        { count := CountPtr.valid 0, data := 0 }).2 = _
    rw [sliceScenarioState_eq, hj, teardown_step]
  have hst : strAfterOrigTeardown t (j + 1)
      = { counters := [some (j + 1)], datas := [some t], trace := [] } := by
    show (Rc.teardown (strScenarioState t (j + 1))
        { count := CountPtr.valid 0, data := 0 }).2 = _
    rw [strScenarioState_eq, hj, teardown_step]
  refine ⟨?_, ?_, ?_, ?_, ?_, ?_⟩
  · rw [sliceScenarioState_eq]
    rfl
  · rw [hsl]
    rfl
  · rw [hsl]
    rfl
  · rw [strScenarioState_eq]
    rfl
  · rw [hst]
    rfl
  · rw [hst]
    rfl

/-- Witness for the use-after-share theorem at the spec's concrete scenarios:
the sequence `[0, 1, 2]` and the text "Hello, world!", each duplicated 3
times. -/
theorem rc_use_after_share_witness :
    Rc.getCount (sliceScenarioState Nat [0, 1, 2] 3) (sliceScenarioRc Nat [0, 1, 2])
      = some (3 + 1)
    ∧ Rc.getCount (sliceAfterOrigTeardown Nat [0, 1, 2] 3)
        (sliceScenarioRc Nat [0, 1, 2]) = some 3
    ∧ Rc.deref (sliceAfterOrigTeardown Nat [0, 1, 2] 3)
        (sliceScenarioRc Nat [0, 1, 2]) = some [0, 1, 2]
    ∧ Rc.getCount (strScenarioState "Hello, world!" 3) (strScenarioRc "Hello, world!")
      = some (3 + 1)
    ∧ Rc.getCount (strAfterOrigTeardown "Hello, world!" 3)
        (strScenarioRc "Hello, world!") = some 3
    ∧ Rc.deref (strAfterOrigTeardown "Hello, world!" 3)
        (strScenarioRc "Hello, world!") = some "Hello, world!" :=
  rc_use_after_share Nat [0, 1, 2] "Hello, world!" 3 (by decide)

/-- C7: constructing from a borrowed slice or borrowed text copies the data
into a newly owned buffer — the handle's data pointer is a fresh slot — and
dereferencing the handle gives back exactly the borrowed contents. -/
theorem rc_copy_roundtrip (α : Type) (s : State (List α)) (xs : List α)
    (st : State String) (t : String) :
    Rc.deref (rcFromSlice s xs).2 (rcFromSlice s xs).1 = some xs
    ∧ (rcFromSlice s xs).1.data = s.datas.length
    ∧ Rc.deref (rcFromStr st t).2 (rcFromStr st t).1 = some t
    ∧ (rcFromStr st t).1.data = st.datas.length := by
  refine ⟨?_, rfl, ?_, rfl⟩
  · show (s.datas ++ [some xs]).getD s.datas.length none = some xs
    rw [List.getD_append_right _ _ _ _ (Nat.le_refl _), Nat.sub_self]
    rfl
  · show (st.datas ++ [some t]).getD st.datas.length none = some t
    rw [List.getD_append_right _ _ _ _ (Nat.le_refl _), Nat.sub_self]
    rfl

/-- C8: two handles compare equal exactly when the values they reference are
equal, equal handles hash equal, and equality is value identity rather than
allocation identity: two handles constructed independently over separately
allocated data compare by value, even though their data pointers differ. -/
theorem rc_value_equality (V : Type) [DecidableEq V] (s : State V) (r1 r2 : Rc)
    (v1 v2 : V) (hf : V → Nat) (h1 : Rc.deref s r1 = some v1)
    (h2 : Rc.deref s r2 = some v2) (v w : V) :
    (Rc.rcEq s r1 r2 = true ↔ v1 = v2)
    ∧ (Rc.rcEq s r1 r2 = true → Rc.rcHash hf s r1 = Rc.rcHash hf s r2)
    ∧ Rc.rcEq (rcNew (rcNew (emptyState V) v).2 w).2 (rcNew (emptyState V) v).1
        (rcNew (rcNew (emptyState V) v).2 w).1 = decide (v = w)
    ∧ (rcNew (emptyState V) v).1.data ≠ (rcNew (rcNew (emptyState V) v).2 w).1.data := by
  refine ⟨?_, ?_, ?_, ?_⟩
  · rw [Rc.rcEq, h1, h2]
    simp
  · intro he
    have hd : Rc.deref s r1 = Rc.deref s r2 := of_decide_eq_true he
    rw [Rc.rcHash, Rc.rcHash, hd]
  · show Rc.rcEq { counters := [some 1, some 1], datas := [some v, some w], trace := [] }
        { count := CountPtr.valid 0, data := 0 }
        { count := CountPtr.valid 1, data := 1 } = decide (v = w)
    rw [Rc.rcEq]
    show decide (some v = some w) = decide (v = w)
    simp
  · show (0 : Addr) ≠ 1
    simp

/-- Witness for the value-equality theorem: two handles over the same list of
data slots each holding 3, and two independent constructions of 2 and 2. -/
theorem rc_value_equality_witness :
    (Rc.rcEq ({ counters := [], datas := [some 3, some 3], trace := [] } : State Nat)
        { count := CountPtr.valid 0, data := 0 }
        { count := CountPtr.valid 0, data := 1 } = true ↔ (3 : Nat) = 3)
    ∧ (Rc.rcEq ({ counters := [], datas := [some 3, some 3], trace := [] } : State Nat)
          { count := CountPtr.valid 0, data := 0 }
          { count := CountPtr.valid 0, data := 1 } = true →
        Rc.rcHash id ({ counters := [], datas := [some 3, some 3], trace := [] } : State Nat)
            { count := CountPtr.valid 0, data := 0 }
          = Rc.rcHash id ({ counters := [], datas := [some 3, some 3], trace := [] } : State Nat)
              { count := CountPtr.valid 0, data := 1 })
    ∧ Rc.rcEq (rcNew (rcNew (emptyState Nat) 2).2 2).2 (rcNew (emptyState Nat) 2).1
        (rcNew (rcNew (emptyState Nat) 2).2 2).1 = decide ((2 : Nat) = 2)
    ∧ (rcNew (emptyState Nat) 2).1.data ≠ (rcNew (rcNew (emptyState Nat) 2).2 2).1.data :=
  rc_value_equality Nat
    { counters := [], datas := [some 3, some 3], trace := [] }
    { count := CountPtr.valid 0, data := 0 }
    { count := CountPtr.valid 0, data := 1 } 3 3 id rfl rfl 2 2

/-- C10: the `Borrow<T>` implementation returns the very reference the
`Deref` implementation produces — its body is `self`, coerced through
`Deref::deref`. -/
theorem rc_borrow_eq_deref (V : Type) (s : State V) (r : Rc) :
    Rc.borrow s r = Rc.deref s r := rfl

end RcModel
